import Mathlib

/-!
Verification of the profile-to-record transformation pipeline
(`src/processors/profile_processor.py`, class `ProfileProcessor`).

Shallow embedding conventions:
* JSON objects become either typed structures with `Option` fields
  (absent key = `none`, mirroring Python's `dict.get(key, default)`)
  or association lists `List (String × α)` when the code iterates or
  looks up dynamic keys.
* Numbers are modelled as `ℤ` (experience counters, balances, kill
  counts) and true division results as `ℚ`.  The Python floats carry
  integral values for every property considered here; `math.log`
  composed with `int(...)` truncation is modelled by its exact
  real-semantics value, the base-2 integer logarithm (see
  `calculate_dungeon_level`).
* Code that can raise returns `Option`, `none` modelling the raised
  exception propagating out of the call: `int(...)` on a non-numeric
  string inside `_process_collections`, the float overflow of `xp / 50`
  inside `_calculate_dungeon_level` for experience beyond the double
  range, and the `last_save / 1000`-and-`fromtimestamp` path inside
  `_process_profile_info` for out-of-range timestamps.
-/

/-! ### Python-primitive helpers -/

/-- Model of `m.get(k)` on a JSON object modelled as an association list
(`dict` keys are unique, so `find?` matches Python lookup). -/
def lookupStr {α : Type} (m : List (String × α)) (k : String) : Option α :=
  (m.find? (fun p => p.1 = k)).map (fun p => p.2)

/-- Model of `m.get(k, d)` on an association-list object. -/
def pyGetD {α : Type} (m : List (String × α)) (k : String) (d : α) : α :=
  (lookupStr m k).getD d

/-- Model of `str.upper()` (ASCII data only in this code base). -/
def pyUpper (s : String) : String := String.mk (s.data.map Char.toUpper)

/-- One step of `str.title()`: upper-case a letter starting a run of
letters, lower-case the rest, leave other characters alone.  The `Bool`
accumulator records whether the previous character was a letter. -/
def pyTitleStep (acc : List Char × Bool) (c : Char) : List Char × Bool :=
  if c.isAlpha then
    (acc.1 ++ [if acc.2 then c.toLower else c.toUpper], true)
  else
    (acc.1 ++ [c], false)

/-- Model of `str.title()` (Python title-casing, ASCII data only). -/
def pyTitle (s : String) : String :=
  String.mk (s.data.foldl pyTitleStep ([], false)).1

/-- Model of `str.replace('_', ' ')` — single-character pattern, so a plain
character map is an exact model. -/
def underscoreToSpace (s : String) : String :=
  String.mk (s.data.map (fun c => if c = '_' then ' ' else c))

/-- Model of `s.startswith(p)` on the underlying character lists. -/
def charsStart : List Char → List Char → Bool
  | [], _ => true
  | _ :: _, [] => false
  | p :: ps, c :: cs => p = c && charsStart ps cs

/-- Accumulator pass of `str.split('_')`; `cur` holds the current
chunk reversed.  `''.split('_') = ['']`, matching the base case. -/
def splitUnderAux : List Char → List Char → List (List Char)
  | [], cur => [cur.reverse]
  | c :: cs, cur =>
    if c = '_' then cur.reverse :: splitUnderAux cs [] else splitUnderAux cs (c :: cur)

/-- Model of `s.split('_')[-1]` — the chunk after the last underscore (the whole
string when there is none).  `split` always returns a non-empty list,
so the `[-1]` index never fails. -/
def lastComponent (s : String) : List Char :=
  (splitUnderAux s.data []).getLastD []

/-- Digit-string value: `some` of the decimal value when the character
list is a non-empty run of ASCII digits, else `none`. -/
def natOfDigits (cs : List Char) : Option ℕ :=
  if cs ≠ [] ∧ cs.all Char.isDigit then
    some (cs.foldl (fun a c => a * 10 + (c.toNat - 48)) 0)
  else none

/-- Python `int(str)`: optional sign followed by digits; `none` models
the `ValueError` raised on anything else.  (Surrounding whitespace,
which cannot occur in the strings fed to it here, is not modelled.) -/
def pyIntChars (cs : List Char) : Option ℤ :=
  match cs with
  | [] => none
  | c :: rest =>
    if c = '-' then (natOfDigits rest).map (fun n => -(n : ℤ))
    else if c = '+' then (natOfDigits rest).map (fun n => (n : ℤ))
    else (natOfDigits (c :: rest)).map (fun n => (n : ℤ))

/-- Python `int(s)` on a string. -/
def pyInt (s : String) : Option ℤ := pyIntChars s.data

/-- Python `max(list, default=0)`: the default only applies to the
empty list (a list of negatives keeps its own maximum). -/
def pyMaxDefault0 : List ℤ → ℤ
  | [] => 0
  | x :: xs => xs.foldl max x

/-- Evaluate a fallible function over a list; any `none` (a raised
exception inside a Python comprehension) aborts the whole list. -/
def mapOpt {α β : Type} (f : α → Option β) : List α → Option (List β)
  | [] => some []
  | x :: xs =>
    match f x, mapOpt f xs with
    | some v, some vs => some (v :: vs)
    | _, _ => none

/-- Concatenation of a list of lists (`List.join`). -/
def listJoin {α : Type} : List (List α) → List α
  | [] => []
  | l :: ls => l ++ listJoin ls

/-- Python list indexing `l[i]` for `List ℤ`, including negative
indices (`l[-1]` is the last element).  An out-of-range index — a
Python `IndexError`, unreachable for the call sites below — yields 0. -/
def pyIndex (l : List ℤ) (i : ℤ) : ℤ :=
  let j : ℤ := if 0 ≤ i then i else (l.length : ℤ) + i
  l.getD j.toNat 0

/-- Fuel-driven base-2 integer logarithm: `log2Fuel fuel n` is
`⌊log₂ n⌋` for `2 ≤ n` (and 0 below 2) whenever `n ≤ fuel`.  Structural
recursion on the fuel keeps it kernel-computable. -/
def log2Fuel : ℕ → ℕ → ℕ
  | 0, _ => 0
  | fuel + 1, n => if 2 ≤ n then log2Fuel fuel (n / 2) + 1 else 0

/-! ### Level engine (`_calculate_skill_level`, `_calculate_slayer_level`,
`_calculate_dungeon_level`, `_xp_to_next_level`, `_skill_progress_percent`) -/

/-- Model of `ProfileProcessor.SKILL_XP`: cumulative thresholds for levels 0–60. -/
def SKILL_XP : List ℤ :=
  [0, 50, 175, 375, 675, 1175, 1925, 2925, 4425, 6425, 9925, 14925, 22425, 32425,
   47425, 67425, 97425, 147425, 222425, 322425, 522425, 822425, 1222425, 1722425,
   2322425, 3022425, 3822425, 4722425, 5722425, 6822425, 8022425, 9322425,
   10722425, 12222425, 13822425, 15522425, 17322425, 19222425, 21222425, 23322425,
   25522425, 27822425, 30222425, 32722425, 35322425, 38072425, 40972425, 44072425,
   47472425, 51172425, 55172425, 59472425, 64072425, 68972425, 74172425, 79672425,
   85472425, 91572425, 97972425, 104672425, 111672425]

/-- The shared scan loop of `_calculate_skill_level` and
`_calculate_slayer_level`: `for level, required_xp in enumerate(table):
if xp < required_xp: return level - 1` and, past the end of the table,
`return len(table) - 1` (the running index then equals `len(table)`, so
both exits return the index minus one). -/
def level_scan (xp : ℤ) : ℤ → List ℤ → ℤ
  | i, [] => i - 1
  | i, required :: rest => if xp < required then i - 1 else level_scan xp (i + 1) rest

/-- Model of `_calculate_skill_level`. -/
def calculate_skill_level (xp : ℤ) : ℤ := level_scan xp 0 SKILL_XP

/-- The local table of `_calculate_slayer_level`. -/
def slayer_xp_requirements : List ℤ :=
  [0, 5, 15, 200, 1000, 5000, 20000, 100000, 400000, 1000000]

/-- Model of `_calculate_slayer_level`. -/
def calculate_slayer_level (xp : ℤ) : ℤ := level_scan xp 0 slayer_xp_requirements

/-- Model of the float-overflow boundary of the true division `xp / 50`
on integer experience: the division produces the correctly rounded
double of the exact quotient and raises `OverflowError` once that
quotient rounds to infinity, i.e. once it reaches
`2¹⁰²⁴ − 2⁹⁷⁰` (halfway between the largest finite double and `2¹⁰²⁴`,
which round-half-to-even sends to infinity).  So the call raises
exactly for `xp ≥ 50 · (2¹⁰²⁴ − 2⁹⁷⁰)`; the numeral below is that
value (see `DUNGEON_XP_OVERFLOW_eq`), kept as a literal so the kernel
compares it without unary exponentiation. -/
def DUNGEON_XP_OVERFLOW : ℤ :=
  8988465674311579039686448570265170753996706635501891346808688949022248414638237547332450898879360354816514320834644395547327777392597020131532874433575291034095445100035419183813692742290885576588223786513503492778568347981142145740993041746823764635953708422218275535217135577984975404652144008895208724889600

/-- Model of `_calculate_dungeon_level`: `if xp < 50: return 0` then
`min(50, int(math.log(xp / 50) / math.log(2)) + 1)`.  The division
`xp / 50` raises `OverflowError` from `DUNGEON_XP_OVERFLOW` on
(modelled as `none`).  Below that, for `xp ≥ 50` the argument of `int`
is non-negative, so truncation is the floor, and
`⌊log₂ (xp / 50)⌋ = ⌊log₂ ⌊xp / 50⌋⌋`; the exact real value of the
float expression is therefore the base-2 integer logarithm of
`xp / 50`, computed here with fuel `xp.toNat ≥ xp.toNat / 50`. -/
def calculate_dungeon_level (xp : ℤ) : Option ℤ :=
  if xp < 50 then some 0
  else if DUNGEON_XP_OVERFLOW ≤ xp then none
  else some (min 50 ((log2Fuel xp.toNat (xp.toNat / 50) : ℤ) + 1))

/-- Model of `_xp_to_next_level`. -/
def xp_to_next_level (current_xp : ℤ) (current_level : ℤ) : ℤ :=
  if (SKILL_XP.length : ℤ) - 1 ≤ current_level then 0
  else pyIndex SKILL_XP (current_level + 1) - current_xp

/-- Model of `_skill_progress_percent`. -/
def skill_progress_percent (current_xp : ℤ) (current_level : ℤ) : ℚ :=
  if (SKILL_XP.length : ℤ) - 1 ≤ current_level then 100
  else
    let current_level_xp := pyIndex SKILL_XP current_level
    let next_level_xp := pyIndex SKILL_XP (current_level + 1)
    let progress_xp := current_xp - current_level_xp
    let level_xp_diff := next_level_xp - current_level_xp
    if 0 < level_xp_diff then ((progress_xp : ℚ) / (level_xp_diff : ℚ)) * 100 else 0

/-! ### Input data model (the JSON shapes the processor reads) -/

/-- One entry of `player_data['slayer_bosses']`. -/
structure SlayerEntry where
  xp : Option ℤ
  boss_kills_tier_1 : Option ℤ
  boss_kills_tier_2 : Option ℤ
  boss_kills_tier_3 : Option ℤ
  boss_kills_tier_4 : Option ℤ
deriving DecidableEq

/-- Model of `dungeons['dungeon_types']['catacombs']`. -/
structure CatacombsSection where
  experience : Option ℤ
  highest_tier_completed : Option ℤ
  tier_completions : Option (List (String × ℤ))
deriving DecidableEq

/-- Model of `dungeons['dungeon_types']`. -/
structure DungeonTypesSection where
  catacombs : Option CatacombsSection
deriving DecidableEq

/-- One entry of `dungeons['player_classes']`. -/
structure ClassEntry where
  experience : Option ℤ
deriving DecidableEq

/-- Model of `player_data['dungeons']`. -/
structure DungeonsSection where
  dungeon_types : Option DungeonTypesSection
  player_classes : Option (List (String × ClassEntry))
deriving DecidableEq

/-- One entry of the `player_data['pets']` list. -/
structure PetEntry where
  type : Option String
  tier : Option String
  level : Option ℤ
  exp : Option ℤ
  active : Option Bool
  heldItem : Option String
deriving DecidableEq

/-- An inventory section such as `player_data['inv_contents']`. -/
structure InvSection where
  data : Option String
deriving DecidableEq

/-- One entry of `player_data['objectives']`. -/
structure ObjEntry where
  status : Option String
deriving DecidableEq

/-- Model of `profile_data['banking']`. -/
structure BankingSection where
  balance : Option ℤ
deriving DecidableEq

/-- The member slice handed to the processor as `player_data`; every
field is optional, `none` meaning the key is absent. -/
structure PlayerData where
  last_save : Option ℤ
  fairy_souls_collected : Option ℤ
  fairy_exchanges : Option ℤ
  stats : Option (List (String × ℤ))
  experience_skill : Option (List (String × ℤ))
  slayer_bosses : Option (List (String × SlayerEntry))
  dungeons : Option DungeonsSection
  inv_contents : Option InvSection
  ender_chest_contents : Option InvSection
  wardrobe_contents : Option InvSection
  equipment_contents : Option InvSection
  unlocked_coll_tiers : Option (List String)
  collection : Option (List (String × ℤ))
  pets : Option (List PetEntry)
  coin_purse : Option ℤ
  objectives : Option (List (String × ObjEntry))
deriving DecidableEq

/-- The profile slice handed to the processor as `profile_data`. -/
structure ProfileData where
  cute_name : Option String
  game_mode : Option String
  banking : Option BankingSection
deriving DecidableEq

/-- Model of `player_data` with every optional key absent. -/
def emptyPlayer : PlayerData :=
  ⟨none, none, none, none, none, none, none, none,
   none, none, none, none, none, none, none, none⟩

/-- Model of `profile_data` with every optional key absent. -/
def emptyProfile : ProfileData := ⟨none, none, none⟩

/-! ### Output record types (the dict shapes the processor returns) -/

/-- One entry of the skills `data` list. -/
structure SkillRow where
  skill : String
  level : ℤ
  xp : ℤ
  xp_to_next : ℤ
  progress_percent : ℚ
deriving DecidableEq

/-- The skills `summary` dict. -/
structure SkillsSummary where
  skill_average : ℚ
  total_skills : ℤ
  maxed_skills : ℤ
deriving DecidableEq

/-- Result of `_process_skills` (carries the extra `average` key). -/
structure SkillsResult where
  data : List SkillRow
  average : ℚ
  summary : SkillsSummary
deriving DecidableEq

/-- One entry of the slayers `data` list. -/
structure SlayerRow where
  slayer : String
  xp : ℤ
  level : ℤ
  tier_1_kills : ℤ
  tier_2_kills : ℤ
  tier_3_kills : ℤ
  tier_4_kills : ℤ
  total_kills : ℤ
deriving DecidableEq

/-- The slayers `summary` dict. -/
structure SlayersSummary where
  total_slayer_xp : ℤ
  total_kills : ℤ
  maxed_slayers : ℤ
deriving DecidableEq

/-- Result of `_process_slayers`. -/
structure SlayersResult where
  data : List SlayerRow
  summary : SlayersSummary
deriving DecidableEq

/-- One entry of the dungeons `data` list.  The Catacombs row carries a
`highest_floor` key that the class rows lack; `kind` holds the `type`
key of the Catacombs row and the `class` key of class rows. -/
structure DungeonRow where
  kind : String
  level : ℤ
  xp : ℤ
  highest_floor : Option ℤ
deriving DecidableEq

/-- The dungeons `summary` dict. -/
structure DungeonsSummary where
  catacombs_level : ℤ
  highest_floor : ℤ
  total_runs : ℤ
deriving DecidableEq

/-- Result of `_process_dungeons`. -/
structure DungeonsResult where
  data : List DungeonRow
  summary : DungeonsSummary
deriving DecidableEq

/-- One entry of the inventory `data` list. -/
structure InventoryRow where
  inventory_type : String
  estimated_items : ℤ
  last_updated : String
deriving DecidableEq

/-- The inventory `summary` dict. -/
structure InventorySummary where
  total_inventories : ℤ
  estimated_total_items : ℤ
deriving DecidableEq

/-- Result of `_process_inventory`. -/
structure InventoryResult where
  data : List InventoryRow
  summary : InventorySummary
deriving DecidableEq

/-- One entry of the collections `data` list. -/
structure CollectionRow where
  collection : String
  category : String
  amount : ℤ
  max_tier : ℤ
deriving DecidableEq

/-- The collections `summary` dict. -/
structure CollectionsSummary where
  total_collections : ℤ
  maxed_collections : ℤ
  total_items_collected : ℤ
deriving DecidableEq

/-- Result of `_process_collections`. -/
structure CollectionsResult where
  data : List CollectionRow
  summary : CollectionsSummary
deriving DecidableEq

/-- One entry of the pets `data` list. -/
structure PetRow where
  type : String
  tier : String
  level : ℤ
  xp : ℤ
  active : Bool
  held_item : Option String
deriving DecidableEq

/-- The pets `summary` dict. -/
structure PetsSummary where
  total_pets : ℤ
  legendary_pets : ℤ
  active_pet : String
deriving DecidableEq

/-- Result of `_process_pets`. -/
structure PetsResult where
  data : List PetRow
  summary : PetsSummary
deriving DecidableEq

/-- The single entry of the networth `data` list. -/
structure NetworthRow where
  category : String
  purse : ℤ
  bank : ℤ
  total : ℤ
deriving DecidableEq

/-- The networth `summary` dict. -/
structure NetworthSummary where
  liquid_coins : ℤ
  estimated_total : ℤ
deriving DecidableEq

/-- Result of `_process_networth` (carries the extra `total` key). -/
structure NetworthResult where
  data : List NetworthRow
  total : ℤ
  summary : NetworthSummary
deriving DecidableEq

/-- The single entry of the misc `data` list. -/
structure MiscRow where
  deaths : ℤ
  kills : ℤ
  items_fished : ℤ
  pet_milestone_ores_mined : ℤ
  auctions_bids : ℤ
  auctions_won : ℤ
deriving DecidableEq

/-- The misc `summary` dict. -/
structure MiscSummary where
  total_objectives : ℤ
  completed_objectives : ℤ
deriving DecidableEq

/-- Result of `_process_misc_stats`. -/
structure MiscResult where
  data : List MiscRow
  summary : MiscSummary
deriving DecidableEq

/-- The single entry of the profile-info `data` list.  `last_save`
holds a formatted date string. -/
structure ProfileInfoRow where
  profile_name : String
  game_mode : String
  last_save : String
  fairy_souls : ℤ
  fairy_exchanges : ℤ
  deaths : ℤ
deriving DecidableEq

/-- The profile-info `summary` dict; `last_active` keeps the raw
millisecond timestamp that the code wraps in a `datetime`. -/
structure ProfileInfoSummary where
  profile_name : String
  game_mode : String
  last_active : Option ℤ
deriving DecidableEq

/-- Result of `_process_profile_info`. -/
structure ProfileInfoResult where
  data : List ProfileInfoRow
  summary : ProfileInfoSummary
deriving DecidableEq

/-- Stand-in for the standard-library call
`datetime.fromtimestamp(ms / 1000).strftime('%Y-%m-%d %H:%M:%S')`:
calendar formatting lives outside this repository and no verified
property depends on the rendered text, so the timestamp is rendered
as its decimal value. -/
def formatLastSave (ms : ℤ) : String := toString ms

/-- The value attached to one key of the `processed_data` dict. -/
inductive PCat where
  | profileInfo (v : ProfileInfoResult)
  | skills (v : SkillsResult)
  | slayers (v : SlayersResult)
  | dungeons (v : DungeonsResult)
  | inventory (v : InventoryResult)
  | collections (v : CollectionsResult)
  | pets (v : PetsResult)
  | networth (v : NetworthResult)
  | misc (v : MiscResult)
deriving DecidableEq

/-! ### Extractors -/

/-- The `skills` list of `_process_skills`, in declaration order. -/
def SKILLS : List String :=
  ["farming", "mining", "combat", "foraging", "fishing", "enchanting", "alchemy",
   "carpentry", "runecrafting", "taming", "social"]

/-- One iteration of the `_process_skills` loop: append the row and,
unless the skill is social or carpentry, add its level to the running
total and bump the counted-skill counter. -/
def skillStep (skill_xp : List (String × ℤ)) (acc : List SkillRow × ℤ × ℤ)
    (skill : String) : List SkillRow × ℤ × ℤ :=
  let xp := pyGetD skill_xp ("SKILL_" ++ pyUpper skill) 0
  let level := calculate_skill_level xp
  let row : SkillRow :=
    ⟨pyTitle skill, level, xp, xp_to_next_level xp level, skill_progress_percent xp level⟩
  let excluded := skill = "social" ∨ skill = "carpentry"
  (acc.1 ++ [row],
   acc.2.1 + (if excluded then 0 else level),
   acc.2.2 + (if excluded then 0 else 1))

/-- Model of `_process_skills`. -/
def process_skills (pd : PlayerData) : SkillsResult :=
  let skill_xp := pd.experience_skill.getD []
  let r := SKILLS.foldl (skillStep skill_xp) ([], 0, 0)
  let skill_average : ℚ := if 0 < r.2.2 then (r.2.1 : ℚ) / (r.2.2 : ℚ) else 0
  { data := r.1
    average := skill_average
    summary :=
      { skill_average := skill_average
        total_skills := (SKILLS.length : ℤ)
        maxed_skills := ((r.1.filter (fun s => 50 ≤ s.level)).length : ℤ) } }

/-- Model of `ProfileProcessor.SLAYERS`, in declaration order. -/
def SLAYERS : List (String × String) :=
  [("zombie", "Revenant Horror"), ("spider", "Tarantula Broodfather"),
   ("wolf", "Sven Packmaster"), ("enderman", "Voidgloom Seraph"),
   ("blaze", "Inferno Demonlord")]

/-- The row built for one boss type by `_process_slayers`: the four
tier kill counters default to 0 and `total_kills` is their sum. -/
def slayerRow (slayer_bosses : List (String × SlayerEntry)) (ty : String)
    (display_name : String) : SlayerRow :=
  let sd := (lookupStr slayer_bosses ty).getD ⟨none, none, none, none, none⟩
  let xp := sd.xp.getD 0
  let k1 := sd.boss_kills_tier_1.getD 0
  let k2 := sd.boss_kills_tier_2.getD 0
  let k3 := sd.boss_kills_tier_3.getD 0
  let k4 := sd.boss_kills_tier_4.getD 0
  ⟨display_name, xp, calculate_slayer_level xp, k1, k2, k3, k4, k1 + k2 + k3 + k4⟩

/-- Model of `_process_slayers`. -/
def process_slayers (pd : PlayerData) : SlayersResult :=
  let slayer_bosses := pd.slayer_bosses.getD []
  let rows := SLAYERS.map (fun p => slayerRow slayer_bosses p.1 p.2)
  { data := rows
    summary :=
      { total_slayer_xp := (rows.map (fun s => s.xp)).sum
        total_kills := (rows.map (fun s => s.total_kills)).sum
        maxed_slayers := ((rows.filter (fun s => 9 ≤ s.level)).length : ℤ) } }

/-- The `classes` list of `_process_dungeons`. -/
def DUNGEON_CLASSES : List String := ["healer", "mage", "berserk", "archer", "tank"]

/-- The row built for one role by the `_process_dungeons` class loop;
`none` models the `OverflowError` raised inside
`_calculate_dungeon_level` for out-of-float-range experience. -/
def dungeonClassRow (player_classes : List (String × ClassEntry)) (class_name : String) :
    Option DungeonRow :=
  let class_info := (lookupStr player_classes class_name).getD ⟨none⟩
  let class_xp := class_info.experience.getD 0
  (calculate_dungeon_level class_xp).map (fun class_level =>
    (⟨pyTitle class_name, class_level, class_xp, none⟩ : DungeonRow))

/-- Model of `_process_dungeons`; the Catacombs level is computed
first, then the class loop runs in declaration order, so an
`OverflowError` in any level computation aborts the call (`none`). -/
def process_dungeons (pd : PlayerData) : Option DungeonsResult :=
  let dungeons := pd.dungeons.getD ⟨none, none⟩
  let catacombs := ((dungeons.dungeon_types.getD ⟨none⟩).catacombs).getD ⟨none, none, none⟩
  let cata_xp := catacombs.experience.getD 0
  (calculate_dungeon_level cata_xp).bind (fun cata_level =>
    (mapOpt (dungeonClassRow (dungeons.player_classes.getD [])) DUNGEON_CLASSES).map
      (fun class_data =>
        { data := [(⟨"Catacombs", cata_level, cata_xp,
            some (catacombs.highest_tier_completed.getD 0)⟩ : DungeonRow)] ++ class_data
          summary :=
            { catacombs_level := cata_level
              highest_floor := catacombs.highest_tier_completed.getD 0
              total_runs :=
                ((List.range 8).map (fun i =>
                  pyGetD (catacombs.tier_completions.getD []) (toString i) 0)).sum } }))

/-- Model of `inventory_types` of `_process_inventory`, paired with the
corresponding `player_data` section, in declaration order. -/
def inventorySections (pd : PlayerData) : List (Option InvSection × String) :=
  [(pd.inv_contents, "Main Inventory"), (pd.ender_chest_contents, "Ender Chest"),
   (pd.wardrobe_contents, "Wardrobe"), (pd.equipment_contents, "Equipment")]

/-- Model of `_process_inventory`: a row is emitted only for present sections;
the item estimate halves the length of the encoded `data` string, and
`last_updated` is always "Available" inside the presence guard. -/
def process_inventory (pd : PlayerData) : InventoryResult :=
  let rows := (inventorySections pd).filterMap (fun p =>
    p.1.map (fun inv_data =>
      (⟨p.2,
        (match inv_data.data with
         | some d => ((d.length / 2 : ℕ) : ℤ)
         | none => 0),
        "Available"⟩ : InventoryRow)))
  { data := rows
    summary :=
      { total_inventories := ((rows.filter (fun i => i.last_updated = "Available")).length : ℤ)
        estimated_total_items := (rows.map (fun i => i.estimated_items)).sum } }

/-- Model of `ProfileProcessor.COLLECTION_CATEGORIES`, in declaration order. -/
def COLLECTION_CATEGORIES : List (String × List String) :=
  [("FARMING", ["WHEAT", "CARROT", "POTATO", "PUMPKIN", "SUGAR_CANE", "MELON",
     "SEEDS", "MUSHROOM_COLLECTION", "COCOA", "CACTUS", "NETHER_STALK"]),
   ("MINING", ["COBBLESTONE", "COAL", "IRON_INGOT", "GOLD_INGOT", "DIAMOND",
     "LAPIS_LAZULI", "EMERALD", "REDSTONE", "QUARTZ", "OBSIDIAN", "GLOWSTONE_DUST",
     "GRAVEL", "ICE", "NETHERRACK", "SAND", "END_STONE"]),
   ("COMBAT", ["ROTTEN_FLESH", "BONE", "STRING", "SPIDER_EYE", "GUNPOWDER",
     "ENDER_PEARL", "GHAST_TEAR", "SLIME_BALL", "BLAZE_ROD", "MAGMA_CREAM"]),
   ("FORAGING", ["LOG", "LOG:1", "LOG:2", "LOG_2:1"]),
   ("FISHING", ["RAW_FISH", "RAW_FISH:1", "RAW_FISH:2", "RAW_FISH:3",
     "PRISMARINE_SHARD", "PRISMARINE_CRYSTALS", "CLAY_BALL", "WATER_LILY",
     "INK_SACK", "SPONGE"])]

/-- The `max_tier` expression of `_process_collections`:
`max([int(tier.split('_')[-1]) for tier in unlocked_tiers if
tier.startswith(f'{item}_')], default=0)`.  `none` models the
`ValueError` raised when a matching marker's final chunk is not an
integer literal. -/
def max_tier_of (item : String) (unlocked_tiers : List String) : Option ℤ :=
  (mapOpt (fun tier => pyInt (String.mk (lastComponent tier)))
      (unlocked_tiers.filter (fun tier => charsStart (item ++ "_").data tier.data))).map
    pyMaxDefault0

/-- The (category, item) iteration space of `_process_collections`. -/
def collection_pairs : List (String × String) :=
  listJoin (COLLECTION_CATEGORIES.map (fun p => p.2.map (fun item => (p.1, item))))

/-- The body of the `_process_collections` loop for one item: outer
`none` is a raised `ValueError`; inner `none` means the item was
filtered out for having no progress. -/
def collection_row (pd : PlayerData) (p : String × String) :
    Option (Option CollectionRow) :=
  let amount := pyGetD (pd.collection.getD []) p.2 0
  (max_tier_of p.2 (pd.unlocked_coll_tiers.getD [])).map (fun max_tier =>
    if 0 < amount ∨ 0 < max_tier then
      some ⟨pyTitle (underscoreToSpace p.2), pyTitle p.1, amount, max_tier⟩
    else none)

/-- Model of `_process_collections`. -/
def process_collections (pd : PlayerData) : Option CollectionsResult :=
  (mapOpt (collection_row pd) collection_pairs).map (fun rows' =>
    let collections_data := rows'.filterMap id
    { data := collections_data
      summary :=
        { total_collections := (collections_data.length : ℤ)
          maxed_collections :=
            ((collections_data.filter (fun c => 10 ≤ c.max_tier)).length : ℤ)
          total_items_collected := (collections_data.map (fun c => c.amount)).sum } })

/-- The row built for one pet entry by `_process_pets`. -/
def petRow (pet : PetEntry) : PetRow :=
  ⟨pet.type.getD "Unknown", pet.tier.getD "COMMON", pet.level.getD 1,
   pet.exp.getD 0, pet.active.getD false, pet.heldItem⟩

/-- Model of `_process_pets`; `active_pet` mirrors
`next((p['type'] for p in processed_pets if p['active']), 'None')`. -/
def process_pets (pd : PlayerData) : PetsResult :=
  let pets_data := pd.pets.getD []
  let processed_pets := pets_data.map petRow
  { data := processed_pets
    summary :=
      { total_pets := (processed_pets.length : ℤ)
        legendary_pets :=
          ((processed_pets.filter (fun p => p.tier = "LEGENDARY")).length : ℤ)
        active_pet :=
          match processed_pets.find? (fun p => p.active) with
          | some p => p.type
          | none => "None" } }

/-- Model of `_process_networth`. -/
def process_networth (pd : PlayerData) (pf : ProfileData) : NetworthResult :=
  let purse := pd.coin_purse.getD 0
  let bank := ((pf.banking.getD ⟨none⟩).balance).getD 0
  { data := [⟨"Coins", purse, bank, purse + bank⟩]
    total := purse + bank
    summary := { liquid_coins := purse + bank, estimated_total := purse + bank } }

/-- Model of `_process_misc_stats`. -/
def process_misc_stats (pd : PlayerData) : MiscResult :=
  let stats := pd.stats.getD []
  let objectives := pd.objectives.getD []
  { data := [⟨pyGetD stats "deaths" 0, pyGetD stats "kills" 0,
      pyGetD stats "items_fished" 0, pyGetD stats "pet_milestone_ores_mined" 0,
      pyGetD stats "auctions_bids" 0, pyGetD stats "auctions_won" 0⟩]
    summary :=
      { total_objectives := (objectives.length : ℤ)
        completed_objectives :=
          ((objectives.filter (fun o => o.2.status = some "COMPLETE")).length : ℤ) } }

/-- Model of the error path of `datetime.fromtimestamp(last_save / 1000)`
(lower bound): the earliest representable `datetime` (year 1), in
milliseconds at UTC.  For a truthy `last_save` outside the modelled
range the source raises — `OverflowError` already in `last_save / 1000`
for magnitudes beyond the float range (e.g. `10⁴⁰⁰`), or a
year-out-of-range error in `fromtimestamp` (e.g. `10¹⁸`).  The local
UTC offset at the two boundary instants is abstracted away, like the
rest of the calendar handling, which is outside the Transformer core;
no claim depends on the exact boundary. -/
def DATETIME_MIN_MS : ℤ := -62135596800000

/-- Model of the error path of `datetime.fromtimestamp(last_save / 1000)`
(upper bound): the latest representable `datetime` (year 9999), in
milliseconds at UTC.  See `DATETIME_MIN_MS`. -/
def DATETIME_MAX_MS : ℤ := 253402300799999

/-- Model of `_process_profile_info`; `last_save = 0` (the `get` default) is
falsy, selecting the "Unknown" / `None` branches and skipping the
`datetime` call entirely.  A truthy `last_save` outside the
representable `datetime` range makes the source raise (see
`DATETIME_MIN_MS`), modelled as `none`. -/
def process_profile_info (pd : PlayerData) (pf : ProfileData) : Option ProfileInfoResult :=
  let last_save := pd.last_save.getD 0
  if last_save ≠ 0 then
    if DATETIME_MIN_MS ≤ last_save ∧ last_save ≤ DATETIME_MAX_MS then
      some
        { data := [⟨pf.cute_name.getD "Unknown", pf.game_mode.getD "normal",
            formatLastSave last_save,
            pd.fairy_souls_collected.getD 0, pd.fairy_exchanges.getD 0,
            pyGetD (pd.stats.getD []) "deaths" 0⟩],
          summary := ⟨pf.cute_name.getD "Unknown", pf.game_mode.getD "normal",
            some last_save⟩ }
    else none
  else
    some
      { data := [⟨pf.cute_name.getD "Unknown", pf.game_mode.getD "normal",
          "Unknown",
          pd.fairy_souls_collected.getD 0, pd.fairy_exchanges.getD 0,
          pyGetD (pd.stats.getD []) "deaths" 0⟩],
        summary := ⟨pf.cute_name.getD "Unknown", pf.game_mode.getD "normal", none⟩ }

/-- Model of `process_all_data`: the `processed_data` dict literal, in insertion
order.  Three of the entries can raise — `_process_profile_info` (bad
`last_save`), `_process_dungeons` (experience beyond the float range)
and `_process_collections` (non-integer marker suffix) — and a raise
anywhere aborts the whole call (`none`). -/
def process_all_data (pd : PlayerData) (pf : ProfileData) :
    Option (List (String × PCat)) :=
  match process_profile_info pd pf, process_dungeons pd, process_collections pd with
  | some profile_info, some dungeons_res, some colls =>
    some [("profile_info", PCat.profileInfo profile_info),
     ("skills", PCat.skills (process_skills pd)),
     ("slayers", PCat.slayers (process_slayers pd)),
     ("dungeons", PCat.dungeons dungeons_res),
     ("inventory", PCat.inventory (process_inventory pd)),
     ("collections", PCat.collections colls),
     ("pets", PCat.pets (process_pets pd)),
     ("networth", PCat.networth (process_networth pd pf)),
     ("misc", PCat.misc (process_misc_stats pd))]
  | _, _, _ => none

/-! ### Spec-side definition for the collection-tier refinement claim -/

/-- Definition following the spec's words (§4.5), to be compared with
`max_tier_of`: the tier number of an unlock marker of the **exact**
form `<item>_<tier-number>` — the item identifier, one underscore, and
a run of digits — and `none` for a marker of any other shape. -/
def spec_tier_of (item : String) (marker : String) : Option ℕ :=
  if charsStart (item ++ "_").data marker.data then
    natOfDigits (marker.data.drop (item ++ "_").length)
  else none

/-- Definition following the spec's words (§4.5): "the highest unlocked
tier by scanning unlock markers matching `<item>_<tier-number>` and
taking the maximum tier number found (0 if none)". -/
def spec_max_tier (item : String) (unlocked_tiers : List String) : ℤ :=
  pyMaxDefault0 ((unlocked_tiers.filterMap (spec_tier_of item)).map (fun n => Int.ofNat n))

/-! ### All-defaults category results (what each extractor returns when
its input section is absent) -/

/-- Result of `_process_skills` on a member with no `experience_skill` section:
eleven rows at level 0, xp 0, 50 xp to level 1, 0% progress. -/
def skillsDefault : SkillsResult :=
  { data := [⟨"Farming", 0, 0, 50, 0⟩, ⟨"Mining", 0, 0, 50, 0⟩, ⟨"Combat", 0, 0, 50, 0⟩,
      ⟨"Foraging", 0, 0, 50, 0⟩, ⟨"Fishing", 0, 0, 50, 0⟩, ⟨"Enchanting", 0, 0, 50, 0⟩,
      ⟨"Alchemy", 0, 0, 50, 0⟩, ⟨"Carpentry", 0, 0, 50, 0⟩, ⟨"Runecrafting", 0, 0, 50, 0⟩,
      ⟨"Taming", 0, 0, 50, 0⟩, ⟨"Social", 0, 0, 50, 0⟩]
    average := 0
    summary := ⟨0, 11, 0⟩ }

/-- Result of `_process_slayers` on a member with no `slayer_bosses` section. -/
def slayersDefault : SlayersResult :=
  { data := [⟨"Revenant Horror", 0, 0, 0, 0, 0, 0, 0⟩,
      ⟨"Tarantula Broodfather", 0, 0, 0, 0, 0, 0, 0⟩,
      ⟨"Sven Packmaster", 0, 0, 0, 0, 0, 0, 0⟩,
      ⟨"Voidgloom Seraph", 0, 0, 0, 0, 0, 0, 0⟩,
      ⟨"Inferno Demonlord", 0, 0, 0, 0, 0, 0, 0⟩]
    summary := ⟨0, 0, 0⟩ }

/-- Result of `_process_dungeons` on a member with no `dungeons` section. -/
def dungeonsDefault : DungeonsResult :=
  { data := [⟨"Catacombs", 0, 0, some 0⟩, ⟨"Healer", 0, 0, none⟩, ⟨"Mage", 0, 0, none⟩,
      ⟨"Berserk", 0, 0, none⟩, ⟨"Archer", 0, 0, none⟩, ⟨"Tank", 0, 0, none⟩]
    summary := ⟨0, 0, 0⟩ }

/-- Result of `_process_collections` on a member with no `unlocked_coll_tiers`
and no `collection` section: every item has zero progress, so no row. -/
def collectionsDefault : CollectionsResult := ⟨[], ⟨0, 0, 0⟩⟩

/-- Result of `_process_pets` on a member with no `pets` list. -/
def petsDefault : PetsResult := ⟨[], ⟨0, 0, "None"⟩⟩

/-- Result of `_process_networth` with no `coin_purse` and no `banking` section. -/
def networthDefault : NetworthResult := ⟨[⟨"Coins", 0, 0, 0⟩], 0, ⟨0, 0⟩⟩

/-! ### Concrete inputs used by witnesses and counterexamples -/

/-- A member owning only a coin purse of 1500. -/
def walletPlayer : PlayerData := { emptyPlayer with coin_purse := some 1500 }

/-- A profile with only a bank balance of 2500. -/
def bankProfile : ProfileData := { emptyProfile with banking := some ⟨some 2500⟩ }

/-- A member whose unlock-marker list contains a marker with a
non-numeric suffix; `int('x')` raises `ValueError` inside
`_process_collections`. -/
def badMarkerPlayer : PlayerData :=
  { emptyPlayer with unlocked_coll_tiers := some ["WHEAT_x"] }

/-- A member whose `last_save` is so large that `last_save / 1000`
raises `OverflowError` inside `_process_profile_info`. -/
def hugeLastSavePlayer : PlayerData :=
  { emptyPlayer with last_save := some 10000000000000000000000000000000000000000000000000000000000000000000000000000000000000000000000000000000000000000000000000000000000000000000000000000000000000000000000000000000000000000000000000000000000000000000000000000000000000000000000000000000000000000000000000000000000000000000000000000000000000000000000000000000000000000000000000000000000000000000000000000000000000000000000000000000000000000 }

/-- A member with a single collection amount: 5 wheat. -/
def wheatPlayer : PlayerData := { emptyPlayer with collection := some [("WHEAT", 5)] }

/-- The collections result for `wheatPlayer`. -/
def wheatRes : CollectionsResult := ⟨[⟨"Wheat", "Farming", 5, 0⟩], ⟨1, 0, 5⟩⟩

/-- A member whose only skill experience is maximal social experience. -/
def socialPlayer : PlayerData :=
  { emptyPlayer with experience_skill := some [("SKILL_SOCIAL", 111672425)] }

/-! ### Level-engine lemmas -/

/-- The scan never returns below the index it starts at, minus one. -/
theorem level_scan_ge (xp : ℤ) (ts : List ℤ) : ∀ i : ℤ, i - 1 ≤ level_scan xp i ts := by
  induction ts with
  | nil => intro i; simp [level_scan]
  | cons t ts ih =>
    intro i
    simp only [level_scan]
    split
    · exact le_refl _
    · calc i - 1 ≤ (i + 1) - 1 := by omega
        _ ≤ level_scan xp (i + 1) ts := ih (i + 1)

/-- The scan is monotone in the experience argument. -/
theorem level_scan_mono {x1 x2 : ℤ} (h : x1 ≤ x2) (ts : List ℤ) :
    ∀ i : ℤ, level_scan x1 i ts ≤ level_scan x2 i ts := by
  induction ts with
  | nil => intro i; exact le_refl _
  | cons t ts ih =>
    intro i
    simp only [level_scan]
    by_cases h2 : x2 < t
    · rw [if_pos (lt_of_le_of_lt h h2), if_pos h2]
    · rw [if_neg h2]
      by_cases h1 : x1 < t
      · rw [if_pos h1]
        calc i - 1 ≤ (i + 1) - 1 := by omega
          _ ≤ level_scan x2 (i + 1) ts := level_scan_ge x2 ts (i + 1)
      · rw [if_neg h1]; exact ih (i + 1)

/-- When the experience meets every threshold, the scan falls off the
end of the table and returns the final index. -/
theorem level_scan_sat (xp : ℤ) : ∀ ts : List ℤ, (∀ t ∈ ts, t ≤ xp) →
    ∀ i : ℤ, level_scan xp i ts = i + (ts.length : ℤ) - 1 := by
  intro ts
  induction ts with
  | nil => intro _ i; simp [level_scan]
  | cons t ts ih =>
    intro hts i
    simp only [level_scan]
    rw [if_neg (not_lt.mpr (hts t (List.mem_cons_self t ts)))]
    rw [ih (fun u hu => hts u (List.mem_cons_of_mem _ hu)) (i + 1)]
    simp only [List.length_cons]
    push_cast
    ring

/-- A table headed by threshold 0 sends every negative experience to
index −1 on the first iteration. -/
theorem level_scan_neg_head (xp i : ℤ) (ts : List ℤ) (h : xp < 0) :
    level_scan xp i (0 :: ts) = i - 1 := by
  simp [level_scan, h]

/-- Fact: `log2Fuel` computes `Nat.log 2` once the fuel covers the argument. -/
theorem log2Fuel_eq (fuel : ℕ) : ∀ n : ℕ, n ≤ fuel → log2Fuel fuel n = Nat.log 2 n := by
  induction fuel with
  | zero =>
    intro n hn
    have h0 : n = 0 := Nat.le_zero.mp hn
    subst h0
    simp [log2Fuel]
  | succ fuel ih =>
    intro n hn
    simp only [log2Fuel]
    by_cases h2 : 2 ≤ n
    · rw [if_pos h2]
      have hlt : n / 2 < n := Nat.div_lt_self (by omega) (by omega)
      rw [ih (n / 2) (by omega)]
      exact (Nat.log_of_one_lt_of_le (by norm_num) h2).symm
    · rw [if_neg h2]
      exact (Nat.log_of_lt (by omega)).symm

/-- Fact: `calculate_dungeon_level` in terms of `Nat.log` for `50 ≤ xp`
below the float-overflow boundary. -/
theorem calculate_dungeon_level_log {xp : ℤ} (h : ¬ xp < 50)
    (hov : xp < DUNGEON_XP_OVERFLOW) :
    calculate_dungeon_level xp = some (min 50 ((Nat.log 2 (xp.toNat / 50) : ℤ) + 1)) := by
  unfold calculate_dungeon_level
  rw [if_neg h, if_neg (not_le.mpr hov), log2Fuel_eq _ _ (Nat.div_le_self _ _)]

/-- C1: for every level table (skill, slayer, dungeon) and every pair
of non-negative experience values `e1 < e2`, the computed level
satisfies `level e1 ≤ level e2` (for the dungeon formula, whenever the
computation returns a level at all rather than raising). -/
theorem level_tables_monotone (e1 e2 : ℤ) (h0 : 0 ≤ e1) (h12 : e1 < e2) :
    calculate_skill_level e1 ≤ calculate_skill_level e2 ∧
    calculate_slayer_level e1 ≤ calculate_slayer_level e2 ∧
    (∀ l1 l2 : ℤ, calculate_dungeon_level e1 = some l1 →
      calculate_dungeon_level e2 = some l2 → l1 ≤ l2) := by
  have hle : e1 ≤ e2 := le_of_lt h12
  refine ⟨level_scan_mono hle _ 0, level_scan_mono hle _ 0, ?_⟩
  intro l1 l2 hl1 hl2
  by_cases h2 : e2 < 50
  · have h1 : e1 < 50 := lt_of_le_of_lt hle h2
    unfold calculate_dungeon_level at hl1 hl2
    rw [if_pos h1] at hl1
    rw [if_pos h2] at hl2
    have e1z := Option.some.inj hl1
    have e2z := Option.some.inj hl2
    omega
  · by_cases hov2 : DUNGEON_XP_OVERFLOW ≤ e2
    · unfold calculate_dungeon_level at hl2
      rw [if_neg h2, if_pos hov2] at hl2
      exact absurd hl2 (by simp)
    · rw [calculate_dungeon_level_log h2 (not_le.mp hov2)] at hl2
      have hl2v := Option.some.inj hl2
      by_cases h1 : e1 < 50
      · have hl1v : 0 = l1 := by
          unfold calculate_dungeon_level at hl1
          rw [if_pos h1] at hl1
          exact Option.some.inj hl1
        rw [← hl1v, ← hl2v]
        exact le_min (by norm_num) (by positivity)
      · have hov1 : ¬ DUNGEON_XP_OVERFLOW ≤ e1 := fun hc => hov2 (le_trans hc hle)
        rw [calculate_dungeon_level_log h1 (not_le.mp hov1)] at hl1
        have hl1v := Option.some.inj hl1
        rw [← hl1v, ← hl2v]
        refine min_le_min (le_refl _) ?_
        have hmono : Nat.log 2 (e1.toNat / 50) ≤ Nat.log 2 (e2.toNat / 50) :=
          Nat.log_mono_right (Nat.div_le_div_right (Int.toNat_le_toNat hle))
        exact add_le_add_right (by exact_mod_cast hmono) 1

/-- Witness for `level_tables_monotone` at `e1 = 100`, `e2 = 200`. -/
theorem level_tables_monotone_witness :
    ((0 : ℤ) ≤ 100 ∧ (100 : ℤ) < 200) ∧
    (calculate_skill_level 100 ≤ calculate_skill_level 200 ∧
     calculate_slayer_level 100 ≤ calculate_slayer_level 200 ∧
     (calculate_dungeon_level 100 = some 2 ∧ calculate_dungeon_level 200 = some 3 ∧
      (2 : ℤ) ≤ 3)) :=
  ⟨by decide,
   (level_tables_monotone 100 200 (by decide) (by decide)).1,
   (level_tables_monotone 100 200 (by decide) (by decide)).2.1,
   by decide, by decide,
   (level_tables_monotone 100 200 (by decide) (by decide)).2.2 2 3 (by decide) (by decide)⟩

/-- C2 amended: experience 0 yields level 0 on all three tables; any
experience at or above the final threshold yields the final index for
arbitrarily large experience on the skill table (60) and the slayer
table (9); the dungeon formula yields its final index 50 from its
saturation point `50 · 2⁴⁹` up to the float-overflow boundary
`50 · (2¹⁰²⁴ − 2⁹⁷⁰)`, at and beyond which it raises `OverflowError`
instead of returning a level. -/
theorem level_tables_edge_cases :
    (calculate_skill_level 0 = 0 ∧ calculate_slayer_level 0 = 0 ∧
     calculate_dungeon_level 0 = some 0) ∧
    (∀ e : ℤ, 111672425 ≤ e → calculate_skill_level e = 60) ∧
    (∀ e : ℤ, 1000000 ≤ e → calculate_slayer_level e = 9) ∧
    (∀ e : ℤ, 50 * 2 ^ 49 ≤ e → e < DUNGEON_XP_OVERFLOW →
      calculate_dungeon_level e = some 50) ∧
    (∀ e : ℤ, DUNGEON_XP_OVERFLOW ≤ e → calculate_dungeon_level e = none) := by
  refine ⟨by decide, ?_, ?_, ?_, ?_⟩
  · intro e he
    have hall : ∀ t ∈ SKILL_XP, t ≤ e := by
      have hb : ∀ t ∈ SKILL_XP, t ≤ (111672425 : ℤ) := by decide
      intro t ht
      exact le_trans (hb t ht) he
    rw [calculate_skill_level, level_scan_sat e SKILL_XP hall 0]
    decide
  · intro e he
    have hall : ∀ t ∈ slayer_xp_requirements, t ≤ e := by
      have hb : ∀ t ∈ slayer_xp_requirements, t ≤ (1000000 : ℤ) := by decide
      intro t ht
      exact le_trans (hb t ht) he
    rw [calculate_slayer_level, level_scan_sat e slayer_xp_requirements hall 0]
    decide
  · intro e he hov
    have h50 : ¬ e < 50 := by
      have : (50 : ℤ) ≤ 50 * 2 ^ 49 := by norm_num
      omega
    rw [calculate_dungeon_level_log h50 hov]
    have htn : (50 * 2 ^ 49 : ℕ) ≤ e.toNat := by
      have := Int.toNat_le_toNat he
      simpa using this
    have hdiv : (2 : ℕ) ^ 49 ≤ e.toNat / 50 :=
      (Nat.le_div_iff_mul_le (by norm_num)).mpr (by omega)
    have hne : e.toNat / 50 ≠ 0 := by
      have : (0 : ℕ) < 2 ^ 49 := by positivity
      omega
    have hlog : 49 ≤ Nat.log 2 (e.toNat / 50) :=
      (Nat.pow_le_iff_le_log (by norm_num) hne).mp hdiv
    have hmin : (50 : ℤ) ≤ (Nat.log 2 (e.toNat / 50) : ℤ) + 1 := by
      have : (49 : ℤ) ≤ (Nat.log 2 (e.toNat / 50) : ℤ) := by exact_mod_cast hlog
      omega
    rw [min_eq_left hmin]
  · intro e he
    unfold calculate_dungeon_level
    have h50 : ¬ e < 50 := by
      have : (50 : ℤ) ≤ DUNGEON_XP_OVERFLOW := by unfold DUNGEON_XP_OVERFLOW; norm_num
      omega
    rw [if_neg h50, if_pos he]

/-- Fact: the overflow boundary is the claimed closed form. -/
theorem DUNGEON_XP_OVERFLOW_eq : DUNGEON_XP_OVERFLOW = 50 * (2 ^ 1024 - 2 ^ 970) := by
  unfold DUNGEON_XP_OVERFLOW
  norm_num

/-- C2 counterexample: at experience `50 · 2¹⁰²⁴` — far above the
dungeon table's saturation threshold — the dungeon computation raises
(returns no level) instead of yielding the final index 50. -/
theorem dungeon_overflow_counterexample :
    calculate_dungeon_level 8988465674311579538646525953945123668089884894711532863671504057886633790275048156635423866120376801056005693993569667882939488440720831124642371531973706218888394671243274263815110980062304705972654147604250288441907534117123144073695655527041361858167525534229314911997362296923985815241767816481211206860800 = none ∧
    calculate_dungeon_level 8988465674311579538646525953945123668089884894711532863671504057886633790275048156635423866120376801056005693993569667882939488440720831124642371531973706218888394671243274263815110980062304705972654147604250288441907534117123144073695655527041361858167525534229314911997362296923985815241767816481211206860800 ≠ some 50 ∧
    (50 * 2 ^ 49 : ℤ) ≤ 8988465674311579538646525953945123668089884894711532863671504057886633790275048156635423866120376801056005693993569667882939488440720831124642371531973706218888394671243274263815110980062304705972654147604250288441907534117123144073695655527041361858167525534229314911997362296923985815241767816481211206860800 ∧
    (8988465674311579538646525953945123668089884894711532863671504057886633790275048156635423866120376801056005693993569667882939488440720831124642371531973706218888394671243274263815110980062304705972654147604250288441907534117123144073695655527041361858167525534229314911997362296923985815241767816481211206860800 : ℤ) = 50 * 2 ^ 1024 := by
  refine ⟨by decide, by decide, by decide, by norm_num⟩

/-- Witness for `level_tables_edge_cases` at the final thresholds and
at the overflow boundary. -/
theorem level_tables_edge_cases_witness :
    calculate_skill_level 111672425 = 60 ∧ calculate_slayer_level 1000000 = 9 ∧
    calculate_dungeon_level (50 * 2 ^ 49) = some 50 ∧
    calculate_dungeon_level DUNGEON_XP_OVERFLOW = none :=
  ⟨level_tables_edge_cases.2.1 _ (by decide), level_tables_edge_cases.2.2.1 _ (by decide),
   level_tables_edge_cases.2.2.2.1 _ (by decide) (by decide),
   level_tables_edge_cases.2.2.2.2 _ (by decide)⟩

/-- C3 counterexample: experience −1 yields level −1 (not 0) on the
skill and slayer tables; only the dungeon formula returns 0. -/
theorem negative_xp_counterexample :
    calculate_skill_level (-1) = -1 ∧ calculate_slayer_level (-1) = -1 ∧
    calculate_dungeon_level (-1) = some 0 ∧ calculate_skill_level (-1) ≠ 0 := by decide

/-- C3 amended: a negative experience value is **not** clamped to 0
before lookup: the skill and slayer scans return −1 (one below the
level of experience 0), while the dungeon formula returns 0. -/
theorem negative_xp_levels (e : ℤ) (h : e < 0) :
    calculate_skill_level e = -1 ∧ calculate_slayer_level e = -1 ∧
    calculate_dungeon_level e = some 0 := by
  refine ⟨?_, ?_, ?_⟩
  · have hhead : SKILL_XP = 0 :: SKILL_XP.tail := rfl
    rw [calculate_skill_level, hhead, level_scan_neg_head e 0 _ h]
    norm_num
  · have hhead : slayer_xp_requirements = 0 :: slayer_xp_requirements.tail := rfl
    rw [calculate_slayer_level, hhead, level_scan_neg_head e 0 _ h]
    norm_num
  · unfold calculate_dungeon_level
    rw [if_pos (by omega)]

/-- Witness for `negative_xp_levels` at `e = -5`. -/
theorem negative_xp_levels_witness :
    calculate_skill_level (-5) = -1 ∧ calculate_slayer_level (-5) = -1 ∧
    calculate_dungeon_level (-5) = some 0 :=
  negative_xp_levels (-5) (by decide)

/-! ### Pets and networth -/

/-- Fact: `find?` over a mapped list searches the originals with the
composed predicate. -/
theorem find_map_list {α β : Type} (f : α → β) (p : β → Bool) :
    ∀ l : List α, (l.map f).find? p = (l.find? (fun a => p (f a))).map f := by
  intro l
  induction l with
  | nil => rfl
  | cons x xs ih =>
    simp only [List.map_cons, List.find?]
    cases hp : p (f x)
    · simpa [hp] using ih
    · simp [hp]

/-- C10: the pets extractor emits exactly one record per input entry,
in input order; `active_pet` is the (defaulted) type of the first
entry whose active flag is set, and the sentinel "None" when no entry
is active. -/
theorem pets_records (pd : PlayerData) :
    (process_pets pd).data = (pd.pets.getD []).map petRow ∧
    (process_pets pd).data.length = (pd.pets.getD []).length ∧
    (process_pets pd).summary.active_pet =
      (match (pd.pets.getD []).find? (fun pet => pet.active.getD false) with
       | some pet => pet.type.getD "Unknown"
       | none => "None") := by
  refine ⟨rfl, by simp [process_pets], ?_⟩
  show (match ((pd.pets.getD []).map petRow).find? (fun p => p.active) with
        | some p => p.type
        | none => "None") = _
  rw [find_map_list petRow (fun p => p.active) (pd.pets.getD [])]
  have hpred : (fun a : PetEntry => (petRow a).active) = (fun pet : PetEntry => pet.active.getD false) := rfl
  rw [hpred]
  cases hf : (pd.pets.getD []).find? (fun pet => pet.active.getD false) with
  | none => rfl
  | some pet => rfl

/-- C9: the networth total is wallet plus bank, each defaulting to 0
when its field is absent; in particular wallet 1500 and bank 2500
yield total 4000, and absence of both yields 0. -/
theorem networth_total :
    (∀ (pd : PlayerData) (pf : ProfileData),
      (process_networth pd pf).total =
        (match pd.coin_purse with
         | some w => w
         | none => 0) +
        (match pf.banking with
         | some bk =>
           (match bk.balance with
            | some b => b
            | none => 0)
         | none => 0)) ∧
    (process_networth walletPlayer bankProfile).total = 4000 ∧
    (process_networth emptyPlayer emptyProfile).total = 0 := by
  refine ⟨?_, by decide, by decide⟩
  intro pd pf
  unfold process_networth
  rcases pd.coin_purse with _ | w <;> rcases pf.banking with _ | ⟨_ | b⟩ <;> rfl

/-! ### Collections: presence iff progress (C7) -/

/-- Successful `mapOpt` relates input and output pointwise. -/
theorem mapOpt_eq_some {α β : Type} (f : α → Option β) :
    ∀ {l : List α} {ys : List β}, mapOpt f l = some ys →
      List.Forall₂ (fun a b => f a = some b) l ys := by
  intro l
  induction l with
  | nil =>
    intro ys h
    simp only [mapOpt, Option.some.injEq] at h
    subst h
    exact List.Forall₂.nil
  | cons x xs ih =>
    intro ys h
    simp only [mapOpt] at h
    cases hfx : f x with
    | none =>
      rw [hfx] at h
      cases hrest : mapOpt f xs <;> rw [hrest] at h <;> simp at h
    | some v =>
      rw [hfx] at h
      cases hrest : mapOpt f xs with
      | none => rw [hrest] at h; simp at h
      | some vs =>
        rw [hrest] at h
        simp only [Option.some.injEq] at h
        subst h
        exact List.Forall₂.cons hfx (ih hrest)

/-- A left element of a `Forall₂` pairing has a related right element. -/
theorem forall₂_mem_left {α β : Type} {R : α → β → Prop} :
    ∀ {l : List α} {ys : List β}, List.Forall₂ R l ys → ∀ {a}, a ∈ l → ∃ b ∈ ys, R a b := by
  intro l ys h
  induction h with
  | nil => intro a ha; simp at ha
  | cons hR _ ih =>
    intro a ha
    rcases List.mem_cons.mp ha with rfl | ha2
    · exact ⟨_, List.mem_cons_self _ _, hR⟩
    · obtain ⟨b, hb, hRb⟩ := ih ha2
      exact ⟨b, List.mem_cons_of_mem _ hb, hRb⟩

/-- A right element of a `Forall₂` pairing has a related left element. -/
theorem forall₂_mem_right {α β : Type} {R : α → β → Prop} :
    ∀ {l : List α} {ys : List β}, List.Forall₂ R l ys → ∀ {b}, b ∈ ys → ∃ a ∈ l, R a b := by
  intro l ys h
  induction h with
  | nil => intro b hb; simp at hb
  | cons hR _ ih =>
    intro b hb
    rcases List.mem_cons.mp hb with rfl | hb2
    · exact ⟨_, List.mem_cons_self _ _, hR⟩
    · obtain ⟨a, ha, hRa⟩ := ih hb2
      exact ⟨a, List.mem_cons_of_mem _ ha, hRa⟩

/-- Membership in `listJoin`. -/
theorem mem_listJoin {α : Type} {a : α} : ∀ {L : List (List α)},
    a ∈ listJoin L ↔ ∃ l ∈ L, a ∈ l := by
  intro L
  induction L with
  | nil => simp [listJoin]
  | cons l ls ih => simp [listJoin, List.mem_append, ih]

/-- Every row kept by the collections filter has positive amount or
positive tier (on its own fields). -/
theorem collections_rows_pos (pd : PlayerData) {rows' : List (Option CollectionRow)}
    (hF : List.Forall₂ (fun a b => collection_row pd a = some b) collection_pairs rows') :
    ∀ r ∈ rows'.filterMap id, 0 < r.amount ∨ 0 < r.max_tier := by
  intro r hr
  rw [List.mem_filterMap] at hr
  obtain ⟨o, ho, hid⟩ := hr
  cases o with
  | none => simp at hid
  | some r2 =>
    simp only [id, Option.some.injEq] at hid
    subst hid
    obtain ⟨p, _, hpr⟩ := forall₂_mem_right hF ho
    unfold collection_row at hpr
    rw [Option.map_eq_some'] at hpr
    obtain ⟨mt, _, hif⟩ := hpr
    by_cases hc : 0 < pyGetD (pd.collection.getD []) p.2 0 ∨ 0 < mt
    · rw [if_pos hc] at hif
      have hrr := Option.some.inj hif
      subst hrr
      simpa using hc
    · rw [if_neg hc] at hif
      exact absurd hif (by simp)

/-- C7: for every item of the fixed category lists, its record is in
the collections output iff its amount or its computed tier is
positive; all-zero items never appear. -/
theorem collections_presence_iff (pd : PlayerData) (res : CollectionsResult)
    (h : process_collections pd = some res) :
    (∀ r ∈ res.data, 0 < r.amount ∨ 0 < r.max_tier) ∧
    (∀ cat items item, (cat, items) ∈ COLLECTION_CATEGORIES → item ∈ items →
      ∃ mt, max_tier_of item (pd.unlocked_coll_tiers.getD []) = some mt ∧
        ((⟨pyTitle (underscoreToSpace item), pyTitle cat,
            pyGetD (pd.collection.getD []) item 0, mt⟩ : CollectionRow) ∈ res.data ↔
          (0 < pyGetD (pd.collection.getD []) item 0 ∨ 0 < mt))) := by
  unfold process_collections at h
  rw [Option.map_eq_some'] at h
  obtain ⟨rows', hrows, hres⟩ := h
  have hF := mapOpt_eq_some _ hrows
  have hpos := collections_rows_pos pd hF
  have hdata : res.data = rows'.filterMap id := by rw [← hres]
  constructor
  · intro r hr
    exact hpos r (hdata ▸ hr)
  · intro cat items item hcat hitem
    have hp : (cat, item) ∈ collection_pairs := by
      unfold collection_pairs
      refine mem_listJoin.mpr ⟨items.map (fun it => (cat, it)), ?_, ?_⟩
      · exact List.mem_map_of_mem (fun q => q.2.map (fun it => (q.1, it))) hcat
      · exact List.mem_map_of_mem _ hitem
    obtain ⟨b, hb, hfb⟩ := forall₂_mem_left hF hp
    unfold collection_row at hfb
    rw [Option.map_eq_some'] at hfb
    obtain ⟨mt, hmt, hif⟩ := hfb
    refine ⟨mt, hmt, ?_⟩
    constructor
    · intro hmem
      have := hpos _ (hdata ▸ hmem)
      simpa using this
    · intro hc
      rw [hdata]
      rw [if_pos hc] at hif
      rw [List.mem_filterMap]
      exact ⟨b, hb, by rw [← hif]; rfl⟩

/-- Witness for `collections_presence_iff`: a member with 5 wheat gets
exactly the wheat record. -/
theorem collections_presence_iff_witness :
    ∃ mt, max_tier_of "WHEAT" (wheatPlayer.unlocked_coll_tiers.getD []) = some mt ∧
      ((⟨pyTitle (underscoreToSpace "WHEAT"), pyTitle "FARMING",
          pyGetD (wheatPlayer.collection.getD []) "WHEAT" 0, mt⟩ : CollectionRow) ∈ wheatRes.data ↔
        (0 < pyGetD (wheatPlayer.collection.getD []) "WHEAT" 0 ∨ 0 < mt)) :=
  (collections_presence_iff wheatPlayer wheatRes (by decide)).2 "FARMING"
    ["WHEAT", "CARROT", "POTATO", "PUMPKIN", "SUGAR_CANE", "MELON", "SEEDS",
     "MUSHROOM_COLLECTION", "COCOA", "CACTUS", "NETHER_STALK"] "WHEAT"
    (by decide) (by decide)

/-! ### Collections: tier-marker scan vs. the spec's exact form (C8) -/

/-- A successful character-list `startswith` yields a decomposition. -/
theorem charsStart_exists : ∀ {p l : List Char}, charsStart p l = true → ∃ t, l = p ++ t := by
  intro p
  induction p with
  | nil => intro l _; exact ⟨l, rfl⟩
  | cons c cs ih =>
    intro l h
    cases l with
    | nil => simp [charsStart] at h
    | cons x xs =>
      simp only [charsStart, Bool.and_eq_true, decide_eq_true_eq] at h
      obtain ⟨hc, hrest⟩ := h
      obtain ⟨t, ht⟩ := ih hrest
      exact ⟨t, by rw [ht, hc]; rfl⟩

/-- Fact: `getLastD` of a non-empty list ignores the default. -/
theorem getLastD_irrel {α : Type} : ∀ (l : List α), l ≠ [] → ∀ d1 d2 : α,
    l.getLastD d1 = l.getLastD d2 := by
  intro l
  induction l with
  | nil => intro h; exact absurd rfl h
  | cons a l ih =>
    intro _ d1 d2
    cases l with
    | nil => rfl
    | cons b l2 => rfl

/-- The split accumulator never produces an empty chunk list. -/
theorem splitUnderAux_ne_nil : ∀ (l cur : List Char), splitUnderAux l cur ≠ [] := by
  intro l
  induction l with
  | nil => intro cur; simp [splitUnderAux]
  | cons c cs ih =>
    intro cur
    simp only [splitUnderAux]
    split
    · simp
    · exact ih _

/-- Splitting a chunk without underscores yields that single chunk. -/
theorem splitUnderAux_no_under : ∀ (l cur : List Char), '_' ∉ l →
    splitUnderAux l cur = [cur.reverse ++ l] := by
  intro l
  induction l with
  | nil => intro cur _; simp [splitUnderAux]
  | cons c cs ih =>
    intro cur h
    simp only [splitUnderAux]
    rw [if_neg (by intro hc; exact h (hc ▸ List.mem_cons_self c cs))]
    rw [ih (c :: cur) (fun hm => h (List.mem_cons_of_mem _ hm))]
    simp

/-- The last chunk of a split only depends on the text after the last
underscore. -/
theorem splitUnderAux_append_last : ∀ (a : List Char) (d cur : List Char),
    (splitUnderAux (a ++ '_' :: d) cur).getLastD [] = (splitUnderAux d []).getLastD [] := by
  intro a
  induction a with
  | nil =>
    intro d cur
    have hstep : splitUnderAux ('_' :: d) cur = cur.reverse :: splitUnderAux d [] := by
      simp [splitUnderAux]
    simp only [List.nil_append]
    rw [hstep, List.getLastD_cons]
    exact getLastD_irrel _ (splitUnderAux_ne_nil _ _) _ []
  | cons c cs ih =>
    intro d cur
    simp only [List.cons_append, splitUnderAux]
    split
    · rw [List.getLastD_cons]
      rw [getLastD_irrel _ (splitUnderAux_ne_nil _ _) _ []]
      exact ih d []
    · exact ih d (c :: cur)

/-- Fact: `split('_')[-1]` of `a ++ '_' ++ d` is `d` when `d` itself has no
underscore. -/
theorem splitUnder_last_exact (a d : List Char) (hd : '_' ∉ d) :
    (splitUnderAux (a ++ '_' :: d) []).getLastD [] = d := by
  rw [splitUnderAux_append_last a d []]
  rw [splitUnderAux_no_under d [] hd]
  rfl

/-- Fact: `int(...)` succeeds on a recognised digit run with the same value. -/
theorem pyIntChars_digits {t : List Char} {n : ℕ} (h : natOfDigits t = some n) :
    pyIntChars t = some (n : ℤ) := by
  have hcond : t ≠ [] ∧ t.all Char.isDigit := by
    unfold natOfDigits at h
    by_cases hc : t ≠ [] ∧ t.all Char.isDigit
    · exact hc
    · rw [if_neg hc] at h; exact absurd h (by simp)
  cases t with
  | nil => exact absurd rfl hcond.1
  | cons c rest =>
    have hcdig : c.isDigit = true := by
      have := List.all_eq_true.mp hcond.2 c (List.mem_cons_self _ _)
      simpa using this
    have hcm : c ≠ '-' := by intro hc; rw [hc] at hcdig; simp [Char.isDigit] at hcdig
    have hcp : c ≠ '+' := by intro hc; rw [hc] at hcdig; simp [Char.isDigit] at hcdig
    simp only [pyIntChars, if_neg hcm, if_neg hcp]
    rw [h]
    rfl

/-- For an exact-form marker the tier value parsed by the code (last
`_`-chunk) agrees with the spec's tier number. -/
theorem code_tier_eq_spec_tier {item m : String} {n : ℕ}
    (hst : charsStart (item ++ "_").data m.data = true)
    (hn : spec_tier_of item m = some n) :
    pyInt (String.mk (lastComponent m)) = some (n : ℤ) := by
  obtain ⟨t, ht⟩ := charsStart_exists hst
  unfold spec_tier_of at hn
  rw [if_pos hst] at hn
  have hdrop : m.data.drop (item ++ "_").length = t := by
    rw [ht]
    exact List.drop_left _ _
  rw [hdrop] at hn
  have hall : t.all Char.isDigit = true := by
    unfold natOfDigits at hn
    by_cases hc : t ≠ [] ∧ t.all Char.isDigit
    · exact hc.2
    · rw [if_neg hc] at hn; exact absurd hn (by simp)
  have hnou : '_' ∉ t := by
    intro hmem
    have := List.all_eq_true.mp hall _ hmem
    simp [Char.isDigit] at this
  have hdata : m.data = item.data ++ '_' :: t := by
    rw [ht, String.data_append]
    simp
  have hlast : lastComponent m = t := by
    unfold lastComponent
    rw [hdata]
    exact splitUnder_last_exact item.data t hnou
  rw [show pyInt (String.mk (lastComponent m)) = pyIntChars (lastComponent m) from rfl]
  rw [hlast]
  exact pyIntChars_digits hn

/-- When every marker matching `<item>_` is of the spec's exact form,
the code's parse of the matching markers succeeds and produces exactly
the spec's tier numbers, in order. -/
theorem mapOpt_tiers (item : String) : ∀ markers : List String,
    (∀ m ∈ markers, charsStart (item ++ "_").data m.data = true →
      (spec_tier_of item m).isSome = true) →
    mapOpt (fun tier => pyInt (String.mk (lastComponent tier)))
      (markers.filter (fun tier => charsStart (item ++ "_").data tier.data)) =
      some ((markers.filterMap (spec_tier_of item)).map (fun n => Int.ofNat n)) := by
  intro markers
  induction markers with
  | nil => intro _; rfl
  | cons m ms ih =>
    intro hwf
    have ihtail := ih (fun m2 hm2 => hwf m2 (List.mem_cons_of_mem _ hm2))
    by_cases hst : charsStart (item ++ "_").data m.data = true
    · have hsome := hwf m (List.mem_cons_self _ _) hst
      rw [Option.isSome_iff_exists] at hsome
      obtain ⟨n, hn⟩ := hsome
      have hpy := code_tier_eq_spec_tier hst hn
      have hfil : List.filter (fun tier => charsStart (item ++ "_").data tier.data) (m :: ms) =
          m :: List.filter (fun tier => charsStart (item ++ "_").data tier.data) ms := by
        simp only [List.filter]
        rw [hst]
      rw [hfil, List.filterMap_cons_some hn]
      simp only [mapOpt, hpy, ihtail, List.map_cons]
      rfl
    · have hst2 : charsStart (item ++ "_").data m.data = false := by
        revert hst
        cases charsStart (item ++ "_").data m.data <;> simp
      have hfil : List.filter (fun tier => charsStart (item ++ "_").data tier.data) (m :: ms) =
          List.filter (fun tier => charsStart (item ++ "_").data tier.data) ms := by
        simp only [List.filter]
        rw [hst2]
      have hnone : spec_tier_of item m = none := by
        unfold spec_tier_of
        rw [if_neg (by simpa using hst)]
      rw [hfil, List.filterMap_cons_none hnone]
      exact ihtail

/-- C8 amended: when every unlock marker beginning with `<item>_` has
the exact form `<item>_<digits>`, the code's `max_tier` computation
succeeds and equals the spec's maximum tier number (0 if none). -/
theorem max_tier_exact_form (item : String) (markers : List String)
    (hwf : ∀ m ∈ markers, charsStart (item ++ "_").data m.data = true →
      (spec_tier_of item m).isSome = true) :
    max_tier_of item markers = some (spec_max_tier item markers) := by
  unfold max_tier_of spec_max_tier
  rw [mapOpt_tiers item markers hwf]
  rfl

/-- Witness for `max_tier_exact_form` on well-formed markers. -/
theorem max_tier_exact_form_witness :
    (∀ m ∈ ["WHEAT_5", "IRON_INGOT_3", "WHEAT_2"],
      charsStart ("WHEAT" ++ "_").data m.data = true →
      (spec_tier_of "WHEAT" m).isSome = true) ∧
    max_tier_of "WHEAT" ["WHEAT_5", "IRON_INGOT_3", "WHEAT_2"] =
      some (spec_max_tier "WHEAT" ["WHEAT_5", "IRON_INGOT_3", "WHEAT_2"]) :=
  ⟨by decide, max_tier_exact_form _ _ (by decide)⟩

/-- C8 counterexample: the marker `LOG_2:1_4` (an unlock of the item
`LOG_2:1`) is not of the exact form `LOG_<tier-number>`, yet the code
counts it as tier 4 for item `LOG`; and a marker with a non-numeric
suffix makes the computation raise instead of never raising. -/
theorem max_tier_counterexample :
    max_tier_of "LOG" ["LOG_2:1_4"] = some 4 ∧
    spec_max_tier "LOG" ["LOG_2:1_4"] = 0 ∧
    max_tier_of "LOG" ["LOG_x"] = none := by decide

/-! ### Orchestrator key set (C5) -/

/-- Fact: when the three fallible extractors succeed, `process_all_data`
returns the nine-entry dict literal. -/
theorem process_all_data_mk {pd : PlayerData} {pf : ProfileData}
    {info : ProfileInfoResult} {dgs : DungeonsResult} {colls : CollectionsResult}
    (h1 : process_profile_info pd pf = some info)
    (h2 : process_dungeons pd = some dgs)
    (h3 : process_collections pd = some colls) :
    process_all_data pd pf =
      some [("profile_info", PCat.profileInfo info),
            ("skills", PCat.skills (process_skills pd)),
            ("slayers", PCat.slayers (process_slayers pd)),
            ("dungeons", PCat.dungeons dgs),
            ("inventory", PCat.inventory (process_inventory pd)),
            ("collections", PCat.collections colls),
            ("pets", PCat.pets (process_pets pd)),
            ("networth", PCat.networth (process_networth pd pf)),
            ("misc", PCat.misc (process_misc_stats pd))] := by
  unfold process_all_data
  rw [h1, h2, h3]

/-- Fact: a successful `process_all_data` means all three fallible
extractors succeeded and the result is the nine-entry dict literal. -/
theorem process_all_data_eq_some {pd : PlayerData} {pf : ProfileData}
    {r : List (String × PCat)} (h : process_all_data pd pf = some r) :
    ∃ info dgs colls,
      process_profile_info pd pf = some info ∧
      process_dungeons pd = some dgs ∧
      process_collections pd = some colls ∧
      r = [("profile_info", PCat.profileInfo info),
           ("skills", PCat.skills (process_skills pd)),
           ("slayers", PCat.slayers (process_slayers pd)),
           ("dungeons", PCat.dungeons dgs),
           ("inventory", PCat.inventory (process_inventory pd)),
           ("collections", PCat.collections colls),
           ("pets", PCat.pets (process_pets pd)),
           ("networth", PCat.networth (process_networth pd pf)),
           ("misc", PCat.misc (process_misc_stats pd))] := by
  unfold process_all_data at h
  cases hpi : process_profile_info pd pf with
  | none => rw [hpi] at h; simp at h
  | some info =>
    rw [hpi] at h
    cases hdg : process_dungeons pd with
    | none => rw [hdg] at h; simp at h
    | some dgs =>
      rw [hdg] at h
      cases hcl : process_collections pd with
      | none => rw [hcl] at h; simp at h
      | some colls =>
        rw [hcl] at h
        simp only [Option.some.injEq] at h
        exact ⟨info, dgs, colls, rfl, rfl, rfl, h.symm⟩

/-- C5 amended: whenever `process_all_data` returns, its key list is
exactly the nine names below, in insertion order — the six category
names plus `profile_info`, `inventory` and `misc`. -/
theorem process_all_data_keys (pd : PlayerData) (pf : ProfileData)
    (r : List (String × PCat)) (h : process_all_data pd pf = some r) :
    r.map Prod.fst = ["profile_info", "skills", "slayers", "dungeons", "inventory",
      "collections", "pets", "networth", "misc"] := by
  obtain ⟨info, dgs, colls, _, _, _, hr⟩ := process_all_data_eq_some h
  rw [hr]
  rfl

/-- C5 counterexample: the result carries the key `profile_info`,
which is not one of the six category names. -/
theorem process_all_data_keys_counterexample :
    ∃ r, process_all_data emptyPlayer emptyProfile = some r ∧
      "profile_info" ∈ r.map Prod.fst ∧
      "profile_info" ∉ ["skills", "slayers", "dungeons", "collections", "pets", "networth"] := by
  obtain ⟨info, hinfo⟩ := Option.isSome_iff_exists.mp
    (by decide : (process_profile_info emptyPlayer emptyProfile).isSome = true)
  have hdg : process_dungeons emptyPlayer = some dungeonsDefault := by decide
  have hcd : process_collections emptyPlayer = some collectionsDefault := by decide
  refine ⟨_, process_all_data_mk hinfo hdg hcd, ?_, by decide⟩
  simp

/-- Witness for `process_all_data_keys` on the empty profile. -/
theorem process_all_data_keys_witness :
    (process_all_data emptyPlayer emptyProfile).map (fun r => r.map Prod.fst) =
      some ["profile_info", "skills", "slayers", "dungeons", "inventory",
        "collections", "pets", "networth", "misc"] := by
  obtain ⟨info, hinfo⟩ := Option.isSome_iff_exists.mp
    (by decide : (process_profile_info emptyPlayer emptyProfile).isSome = true)
  have hdg : process_dungeons emptyPlayer = some dungeonsDefault := by decide
  have hcd : process_collections emptyPlayer = some collectionsDefault := by decide
  have hr := process_all_data_mk hinfo hdg hcd
  rw [hr, Option.map_some']
  rw [process_all_data_keys emptyPlayer emptyProfile _ hr]

/-! ### Skill average (C6) -/

/-- C6: the skill average is the arithmetic mean of the levels of the
nine skills other than social and carpentry, and is therefore unchanged
between any two inputs that agree on every key except `SKILL_SOCIAL`
and `SKILL_CARPENTRY`. -/
theorem skill_average_excludes :
    (∀ pd : PlayerData,
      (process_skills pd).average =
        ((((["farming", "mining", "combat", "foraging", "fishing", "enchanting",
            "alchemy", "runecrafting", "taming"].map (fun s =>
              calculate_skill_level
                (pyGetD (pd.experience_skill.getD []) ("SKILL_" ++ pyUpper s) 0))).sum : ℤ) : ℚ) / 9)) ∧
    (∀ pd1 pd2 : PlayerData,
      (∀ k : String, k ≠ "SKILL_SOCIAL" → k ≠ "SKILL_CARPENTRY" →
        pyGetD (pd1.experience_skill.getD []) k 0 = pyGetD (pd2.experience_skill.getD []) k 0) →
      (process_skills pd1).average = (process_skills pd2).average) := by
  have key : ∀ pd : PlayerData,
      (process_skills pd).average =
        ((((["farming", "mining", "combat", "foraging", "fishing", "enchanting",
            "alchemy", "runecrafting", "taming"].map (fun s =>
              calculate_skill_level
                (pyGetD (pd.experience_skill.getD []) ("SKILL_" ++ pyUpper s) 0))).sum : ℤ) : ℚ) / 9) := by
    intro pd
    simp only [process_skills, SKILLS, skillStep, List.foldl_cons, List.foldl_nil,
      List.map_cons, List.map_nil, List.sum_cons, List.sum_nil]
    norm_num +decide
    ring
  refine ⟨key, ?_⟩
  intro pd1 pd2 hagree
  rw [key pd1, key pd2]
  simp only [List.map_cons, List.map_nil, List.sum_cons, List.sum_nil]
  rw [hagree ("SKILL_" ++ pyUpper "farming") (by decide) (by decide),
    hagree ("SKILL_" ++ pyUpper "mining") (by decide) (by decide),
    hagree ("SKILL_" ++ pyUpper "combat") (by decide) (by decide),
    hagree ("SKILL_" ++ pyUpper "foraging") (by decide) (by decide),
    hagree ("SKILL_" ++ pyUpper "fishing") (by decide) (by decide),
    hagree ("SKILL_" ++ pyUpper "enchanting") (by decide) (by decide),
    hagree ("SKILL_" ++ pyUpper "alchemy") (by decide) (by decide),
    hagree ("SKILL_" ++ pyUpper "runecrafting") (by decide) (by decide),
    hagree ("SKILL_" ++ pyUpper "taming") (by decide) (by decide)]

/-- Witness for `skill_average_excludes`: maxing social experience
leaves the average equal to the all-absent average. -/
theorem skill_average_excludes_witness :
    (process_skills socialPlayer).average = (process_skills emptyPlayer).average :=
  skill_average_excludes.2 socialPlayer emptyPlayer (fun k h1 _ => by
    have hfalse : decide (("SKILL_SOCIAL" : String) = k) = false :=
      decide_eq_false (fun he => h1 he.symm)
    simp [socialPlayer, emptyPlayer, pyGetD, lookupStr, List.find?, hfalse])

/-! ### Orchestrator defaults for absent sections (C4) -/

/-- Lookup in the empty object returns the default. -/
theorem pyGetD_nil {α : Type} (k : String) (d : α) : pyGetD [] k d = d := rfl

/-- The skills extractor on an input with no skill-experience section. -/
theorem process_skills_absent (pd : PlayerData) (h : pd.experience_skill = none) :
    process_skills pd = skillsDefault := by
  unfold process_skills
  rw [h]
  have hl0 : calculate_skill_level 0 = 0 := by decide
  simp only [Option.getD_none, SKILLS, skillStep, List.foldl_cons, List.foldl_nil, pyGetD_nil]
  norm_num +decide [hl0, skillsDefault, skill_progress_percent, pyIndex, SKILL_XP,
    xp_to_next_level, List.filter]

/-- The slayer extractor on an input with no slayer-bosses section. -/
theorem process_slayers_absent (pd : PlayerData) (h : pd.slayer_bosses = none) :
    process_slayers pd = slayersDefault := by
  unfold process_slayers
  rw [h]
  decide

/-- The dungeon extractor on an input with no dungeons section. -/
theorem process_dungeons_absent (pd : PlayerData) (h : pd.dungeons = none) :
    process_dungeons pd = some dungeonsDefault := by
  unfold process_dungeons
  rw [h]
  decide

/-- The collections extractor on an input with no unlock markers and
no collection amounts. -/
theorem process_collections_absent (pd : PlayerData) (h1 : pd.unlocked_coll_tiers = none)
    (h2 : pd.collection = none) :
    process_collections pd = some collectionsDefault := by
  unfold process_collections collection_row
  rw [h1, h2]
  decide

/-- Fact: `mapOpt` succeeds when the function succeeds everywhere. -/
theorem mapOpt_isSome {α β : Type} (f : α → Option β) :
    ∀ l : List α, (∀ a ∈ l, (f a).isSome = true) → (mapOpt f l).isSome = true := by
  intro l
  induction l with
  | nil => intro _; rfl
  | cons x xs ih =>
    intro h
    have hx := h x (List.mem_cons_self _ _)
    rw [Option.isSome_iff_exists] at hx
    obtain ⟨v, hv⟩ := hx
    have hxs := ih (fun a ha => h a (List.mem_cons_of_mem _ ha))
    rw [Option.isSome_iff_exists] at hxs
    obtain ⟨vs, hvs⟩ := hxs
    simp [mapOpt, hv, hvs]

/-- With no unlock markers, the collections extractor cannot raise,
whatever the collection amounts are. -/
theorem process_collections_isSome (pd : PlayerData) (h1 : pd.unlocked_coll_tiers = none) :
    (process_collections pd).isSome = true := by
  unfold process_collections
  have hrow : ∀ p ∈ collection_pairs, (collection_row pd p).isSome = true := by
    intro p _
    unfold collection_row
    rw [h1]
    have hmt : max_tier_of p.2 ((none : Option (List String)).getD []) = some 0 := rfl
    rw [hmt]
    rfl
  have := mapOpt_isSome (collection_row pd) collection_pairs hrow
  rw [Option.isSome_iff_exists] at this
  obtain ⟨rows, hrows⟩ := this
  rw [hrows]
  rfl

/-- The pet extractor on an input with no pet list. -/
theorem process_pets_absent (pd : PlayerData) (h : pd.pets = none) :
    process_pets pd = petsDefault := by
  unfold process_pets
  rw [h]
  decide

/-- The currency aggregator with neither purse nor banking data. -/
theorem process_networth_absent (pd : PlayerData) (pf : ProfileData)
    (h1 : pd.coin_purse = none) (h2 : pf.banking = none) :
    process_networth pd pf = networthDefault := by
  unfold process_networth
  rw [h1, h2]
  decide

/-- C4 amended: with the optional sections absent — including the
last-save timestamp, the dungeons section and the unlock-marker list —
the orchestrator always completes, and whenever it completes, every
extractor whose optional input sections are absent contributes its
all-defaults (empty/zero) category result to the returned mapping.
(With sections present the orchestrator can raise: a malformed unlock
marker, an out-of-range `last_save`, or a dungeon experience beyond
the float range.) -/
theorem process_all_data_defaults (pd : PlayerData) (pf : ProfileData) :
    (pd.last_save = none → pd.dungeons = none → pd.unlocked_coll_tiers = none →
      ∃ r, process_all_data pd pf = some r) ∧
    (∀ r, process_all_data pd pf = some r →
      ((pd.experience_skill = none →
         lookupStr r "skills" = some (PCat.skills skillsDefault)) ∧
       (pd.slayer_bosses = none →
         lookupStr r "slayers" = some (PCat.slayers slayersDefault)) ∧
       (pd.dungeons = none →
         lookupStr r "dungeons" = some (PCat.dungeons dungeonsDefault)) ∧
       (pd.unlocked_coll_tiers = none → pd.collection = none →
         lookupStr r "collections" = some (PCat.collections collectionsDefault)) ∧
       (pd.pets = none →
         lookupStr r "pets" = some (PCat.pets petsDefault)) ∧
       (pd.coin_purse = none → pf.banking = none →
         lookupStr r "networth" = some (PCat.networth networthDefault)))) := by
  constructor
  · intro hls hdun hum
    have hpi : ∃ v, process_profile_info pd pf = some v := by
      unfold process_profile_info
      rw [hls]
      exact ⟨_, rfl⟩
    obtain ⟨info, hinfo⟩ := hpi
    have hdg := process_dungeons_absent pd hdun
    have hs := process_collections_isSome pd hum
    rw [Option.isSome_iff_exists] at hs
    obtain ⟨c, hc⟩ := hs
    exact ⟨_, process_all_data_mk hinfo hdg hc⟩
  · intro r hr
    obtain ⟨info, dgs, colls, hinfo, hdgs, hcolls, hr⟩ := process_all_data_eq_some hr
    subst hr
    refine ⟨?_, ?_, ?_, ?_, ?_, ?_⟩
    · intro h
      have base : lookupStr
          [("profile_info", PCat.profileInfo info),
           ("skills", PCat.skills (process_skills pd)),
           ("slayers", PCat.slayers (process_slayers pd)),
           ("dungeons", PCat.dungeons dgs),
           ("inventory", PCat.inventory (process_inventory pd)),
           ("collections", PCat.collections colls),
           ("pets", PCat.pets (process_pets pd)),
           ("networth", PCat.networth (process_networth pd pf)),
           ("misc", PCat.misc (process_misc_stats pd))] "skills" =
          some (PCat.skills (process_skills pd)) := rfl
      rw [base, process_skills_absent pd h]
    · intro h
      have base : lookupStr
          [("profile_info", PCat.profileInfo info),
           ("skills", PCat.skills (process_skills pd)),
           ("slayers", PCat.slayers (process_slayers pd)),
           ("dungeons", PCat.dungeons dgs),
           ("inventory", PCat.inventory (process_inventory pd)),
           ("collections", PCat.collections colls),
           ("pets", PCat.pets (process_pets pd)),
           ("networth", PCat.networth (process_networth pd pf)),
           ("misc", PCat.misc (process_misc_stats pd))] "slayers" =
          some (PCat.slayers (process_slayers pd)) := rfl
      rw [base, process_slayers_absent pd h]
    · intro h
      have base : lookupStr
          [("profile_info", PCat.profileInfo info),
           ("skills", PCat.skills (process_skills pd)),
           ("slayers", PCat.slayers (process_slayers pd)),
           ("dungeons", PCat.dungeons dgs),
           ("inventory", PCat.inventory (process_inventory pd)),
           ("collections", PCat.collections colls),
           ("pets", PCat.pets (process_pets pd)),
           ("networth", PCat.networth (process_networth pd pf)),
           ("misc", PCat.misc (process_misc_stats pd))] "dungeons" =
          some (PCat.dungeons dgs) := rfl
      rw [base]
      have heq : some dgs = some dungeonsDefault := by
        rw [← hdgs, process_dungeons_absent pd h]
      rw [Option.some.inj heq]
    · intro h1 h2
      have base : lookupStr
          [("profile_info", PCat.profileInfo info),
           ("skills", PCat.skills (process_skills pd)),
           ("slayers", PCat.slayers (process_slayers pd)),
           ("dungeons", PCat.dungeons dgs),
           ("inventory", PCat.inventory (process_inventory pd)),
           ("collections", PCat.collections colls),
           ("pets", PCat.pets (process_pets pd)),
           ("networth", PCat.networth (process_networth pd pf)),
           ("misc", PCat.misc (process_misc_stats pd))] "collections" =
          some (PCat.collections colls) := rfl
      rw [base]
      have heq : some colls = some collectionsDefault := by
        rw [← hcolls, process_collections_absent pd h1 h2]
      rw [Option.some.inj heq]
    · intro h
      have base : lookupStr
          [("profile_info", PCat.profileInfo info),
           ("skills", PCat.skills (process_skills pd)),
           ("slayers", PCat.slayers (process_slayers pd)),
           ("dungeons", PCat.dungeons dgs),
           ("inventory", PCat.inventory (process_inventory pd)),
           ("collections", PCat.collections colls),
           ("pets", PCat.pets (process_pets pd)),
           ("networth", PCat.networth (process_networth pd pf)),
           ("misc", PCat.misc (process_misc_stats pd))] "pets" =
          some (PCat.pets (process_pets pd)) := rfl
      rw [base, process_pets_absent pd h]
    · intro h1 h2
      have base : lookupStr
          [("profile_info", PCat.profileInfo info),
           ("skills", PCat.skills (process_skills pd)),
           ("slayers", PCat.slayers (process_slayers pd)),
           ("dungeons", PCat.dungeons dgs),
           ("inventory", PCat.inventory (process_inventory pd)),
           ("collections", PCat.collections colls),
           ("pets", PCat.pets (process_pets pd)),
           ("networth", PCat.networth (process_networth pd pf)),
           ("misc", PCat.misc (process_misc_stats pd))] "networth" =
          some (PCat.networth (process_networth pd pf)) := rfl
      rw [base, process_networth_absent pd pf h1 h2]

/-- Witness for `process_all_data_defaults` on the empty member and
profile. -/
theorem process_all_data_defaults_witness :
    ∃ r, process_all_data emptyPlayer emptyProfile = some r ∧
      lookupStr r "skills" = some (PCat.skills skillsDefault) ∧
      lookupStr r "slayers" = some (PCat.slayers slayersDefault) ∧
      lookupStr r "dungeons" = some (PCat.dungeons dungeonsDefault) ∧
      lookupStr r "collections" = some (PCat.collections collectionsDefault) ∧
      lookupStr r "pets" = some (PCat.pets petsDefault) ∧
      lookupStr r "networth" = some (PCat.networth networthDefault) := by
  obtain ⟨r, hr⟩ := (process_all_data_defaults emptyPlayer emptyProfile).1 rfl rfl rfl
  have h2 := (process_all_data_defaults emptyPlayer emptyProfile).2 r hr
  exact ⟨r, hr, h2.1 rfl, h2.2.1 rfl, h2.2.2.1 rfl, h2.2.2.2.1 rfl rfl,
    h2.2.2.2.2.1 rfl, h2.2.2.2.2.2 rfl rfl⟩

/-- C4 counterexample: with optional sections present the orchestrator
can raise although both root objects are mappings: a malformed unlock
marker (`WHEAT_x`) makes `_process_collections` raise, and a `last_save`
of `10⁴⁰⁰` makes `_process_profile_info` raise in `last_save / 1000`. -/
theorem process_all_data_raises_counterexample :
    process_all_data badMarkerPlayer emptyProfile = none ∧
    process_all_data hugeLastSavePlayer emptyProfile = none := by
  refine ⟨by decide, by decide⟩
